import Mathlib

/-!
Verification development for the Redix MCP server (penchiang/redix-mcp-server).

The repository is a thin Python layer over a remote conversion engine:
a transport adapter (`api_client.py`), a uniform decision-record builder
(`response.py`), two compliance gates (`gates.py`) and per-pipeline
orchestrators (`server.py`).  We embed the decision logic shallowly:

* Python/JSON values are modelled by the inductive type `JVal`; Python
  dictionaries by association lists (`Dict`) with Python `dict.get`
  semantics (`pyGet`) and Python truthiness (`pyTruthy`).
* The remote engine is modelled by an environment `Env : Call → Dict`
  giving, for each outbound request, the dictionary that the transport
  adapter hands back to the caller.  Each orchestrator returns its
  decision record together with the ordered list of requests it issued,
  making the observable remote traffic explicit.
* The transport adapter itself is modelled separately over `HttpOutcome`
  (a wire-level outcome); its fallible paths return `Except`, the model
  of a Python exception escaping the adapter.

Nondeterministic record fields (`transaction_id`, generated by uuid4, and
`timestamp`, read from the clock) are outside the model; all other fields
of every response dictionary are reproduced.
-/

namespace Redix

/-- A Python/JSON value as it appears in request and response bodies. -/
inductive JVal where
  | null : JVal
  | b : Bool → JVal
  | n : Int → JVal
  | s : String → JVal
  | arr : List JVal → JVal
  | obj : List (String × JVal) → JVal

/-- A Python dictionary with string keys, in insertion order. -/
abbrev Dict := List (String × JVal)

/-- First value bound to key `k`, if any (Python `d[k]` presence check). -/
def dget? (d : Dict) (k : String) : Option JVal :=
  (d.find? (fun p => p.1 == k)).map (fun p => p.2)

/-- Python `d.get(k, default)`. -/
def pyGet (d : Dict) (k : String) (default : JVal) : JVal :=
  (dget? d k).getD default

/-- The fields of an object value; `[]` for non-objects. -/
def JVal.objFields : JVal → Dict
  | .obj fs => fs
  | _ => []

/-- Python `v.get(k, default)` for a value known to be a dict.  Responses
follow the validation-endpoint contract in which `errors` is an object;
Python would raise `AttributeError` on a non-dict, which the gates never
hit on contract-conforming responses. -/
def JVal.get (v : JVal) (k : String) (default : JVal) : JVal :=
  pyGet v.objFields k default

/-- Python truthiness of a value. -/
def pyTruthy : JVal → Bool
  | .null => false
  | .b v => v
  | .n v => v != 0
  | .s v => !v.isEmpty
  | .arr vs => !vs.isEmpty
  | .obj fs => !fs.isEmpty

/-- Python `a or b`. -/
def pyOr (a b : JVal) : JVal := if pyTruthy a then a else b

/-- Python `str(v)` as used inside f-strings.  Container values never flow
into the f-strings of this codebase, so their rendering is abbreviated. -/
def pyStr : JVal → String
  | .null => "None"
  | .b true => "True"
  | .b false => "False"
  | .n v => toString v
  | .s v => v
  | .arr _ => "<list>"
  | .obj _ => "<dict>"

/-- Python `str(v)[:k]`-style bounded rendering (the code only slices the
string-valued `_detail` field, produced by the error-dict helper). -/
def pyStrTake (v : JVal) (k : Nat) : String := (pyStr v).take k

/-- Python `len(v)` for sized values. -/
def pyLen : JVal → Nat
  | .arr vs => vs.length
  | .s t => t.length
  | .obj fs => fs.length
  | _ => 0

/-- Elements of a list value (the code only slices list-valued
`error_lines`). -/
def pyElems : JVal → List JVal
  | .arr vs => vs
  | _ => []

/-- Python `v == lit` for a string literal `lit`. -/
def JVal.eqStr : JVal → String → Bool
  | .s t, u => t == u
  | _, _ => false

/-- An `Optional[str]` Python argument as a value (`None` or the string). -/
def optStr : Option String → JVal
  | some t => .s t
  | none => .null

/-- Python truthiness of an `Optional[str]` argument. -/
def pyTruthyOpt : Option String → Bool
  | some t => !t.isEmpty
  | none => false

/-- Python `s.lower()` (ASCII, character-wise). -/
def pyLower (s : String) : String := ⟨s.data.map Char.toLower⟩

/-- Python `s.upper()` (ASCII, character-wise). -/
def pyUpper (s : String) : String := ⟨s.data.map Char.toUpper⟩

/-- Whether the second list is a prefix of the first. -/
def startsWithChars : List Char → List Char → Bool
  | _, [] => true
  | [], _ :: _ => false
  | a :: as, b :: bs => a == b && startsWithChars as bs

/-- Whether `sub` occurs contiguously inside the list. -/
def containsChars (sub : List Char) : List Char → Bool
  | [] => startsWithChars [] sub
  | a :: t => startsWithChars (a :: t) sub || containsChars sub t

/-- Python dict assignment `d[k] = v`: replace in place when the key is
present, append otherwise. -/
def dset (d : Dict) (k : String) (v : JVal) : Dict :=
  if d.any (fun p => p.1 == k) then
    d.map (fun p => if p.1 == k then (k, v) else p)
  else d ++ [(k, v)]

/-- One outbound request to the remote engine, as issued by the three
client methods: endpoint, optional JSON body, optional in-memory file
upload (filename, content), plain form fields, query parameters. -/
inductive Call where
  | postJson : String → Option JVal → List (String × String) → Call
  | postForm : String → Option (String × String) → List (String × String) →
      List (String × String) → Call
  | get : String → List (String × String) → Call

/-- Endpoint path of a request. -/
def Call.endpoint : Call → String
  | .postJson e _ _ => e
  | .postForm e _ _ _ => e
  | .get e _ => e

/-- JSON body of a request, when it has one. -/
def Call.jsonBody : Call → Option JVal
  | .postJson _ b _ => b
  | _ => none

/-- Query parameters of a request. -/
def Call.queryParams : Call → List (String × String)
  | .postJson _ _ p => p
  | .postForm _ _ _ p => p
  | .get _ p => p

/-- The remote engine as seen through the transport adapter: for every
request, the dictionary the adapter returns to the calling orchestrator. -/
abbrev Env := Call → Dict

/-- `response.build_response`: the uniform decision record, keyed as in the
source (the uuid-generated `transaction_id` and clock-read `timestamp`
are outside the model). -/
def build_response (status ruling : String) (data errors warnings : JVal)
    (gate : Option String) : Dict :=
  [("status", .s status),
   ("redix_ruling", .s ruling),
   ("gate", optStr gate),
   ("data", pyOr data (.obj [])),
   ("errors", pyOr errors (.arr [])),
   ("warnings", pyOr warnings (.arr []))]

/-- Python `r["data"][k] = v` on a decision record (records built by
`build_response` always carry an object under `data`). -/
def setDataKey (r : Dict) (k : String) (v : JVal) : Dict :=
  dset r "data" (.obj (dset (JVal.objFields (pyGet r "data" .null)) k v))

/-- Whether `sub` occurs inside `s` (Python `sub in s`). -/
def hasSubstr (s sub : String) : Bool := containsChars sub.data s.data

/-- Wire-level outcome of one HTTP exchange as `httpx` reports it to the
client methods: either a transport error (`httpx.RequestError`, carrying
`str(exc)`), or a response with status code, declared content type, body
text, and the result of `json.loads` on the body (`none` when the body is
not parseable JSON). -/
inductive HttpOutcome where
  | transportError : String → HttpOutcome
  | response : Nat → String → String → Option JVal → HttpOutcome

namespace RedixAPIClient

/-- `RedixAPIClient._error_dict`. -/
def _error_dict (status_code : Nat) (detail : String) (url : String) : Dict :=
  [("_error", .b true),
   ("_status_code", .n status_code),
   ("_detail", .s (detail.take 2000)),
   ("_url", .s url)]

/-- Response handling shared verbatim by the three client methods:
`raise_for_status` (caught, becoming an error dict), the JSON/raw-text
content-type split, and the `RequestError` handler.  A body that the
declared-JSON branch fails to parse raises `json.JSONDecodeError`, which
neither `except` clause catches — modelled as `Except.error`.  A parsed
JSON value is returned as-is, object or not. -/
def handle (url : String) (o : HttpOutcome) : Except String JVal :=
  match o with
  | .transportError detail => .ok (.obj (_error_dict 0 detail url))
  | .response status content_type text json =>
    if 200 ≤ status ∧ status < 300 then
      if hasSubstr content_type "application/json" then
        match json with
        | some j => .ok j
        | none => .error "JSONDecodeError"
      else .ok (.obj [("_raw_text", .s text), ("_status_code", .n status)])
    else .ok (.obj (_error_dict status text url))

/-- `RedixAPIClient.post_form` (request construction is I/O; the response
handling is the observable contract). -/
def post_form (url : String) (o : HttpOutcome) : Except String JVal := handle url o

/-- `RedixAPIClient.post_json`. -/
def post_json (url : String) (o : HttpOutcome) : Except String JVal := handle url o

/-- `RedixAPIClient.get`. -/
def get (url : String) (o : HttpOutcome) : Except String JVal := handle url o

end RedixAPIClient

/-- `gates.VALIDATE_ENDPOINT`. -/
def VALIDATE_ENDPOINT : String := "/api/v2/hipaa-validate/validate-content"

/-- The request Gate 1 issues: `{"content": ..., "transaction_type"?: ...}`
posted to the validation endpoint (the type key is present only when the
argument is truthy). -/
def gate1_request (x12_content : String) (transaction_type : Option String) : Call :=
  let json_body : Dict :=
    if pyTruthyOpt transaction_type then
      [("content", .s x12_content), ("transaction_type", .s (transaction_type.getD ""))]
    else [("content", .s x12_content)]
  Call.postJson VALIDATE_ENDPOINT (some (.obj json_body)) []

/-- `gates.gate1_input_validation`: validate X12 input before conversion.
Returns the optional verdict and the requests issued. -/
def gate1_input_validation (env : Env) (x12_content : String)
    (transaction_type : Option String) (strict_mode : Bool) :
    Option Dict × List Call :=
  let call := gate1_request x12_content transaction_type
  let result := env call
  if pyTruthy (pyGet result "_error" .null) then
    (some (build_response "ERROR"
      ("Gate 1 (input validation) could not reach the validation service. HTTP "
        ++ pyStr (pyGet result "_status_code" .null) ++ ": "
        ++ pyStrTake (pyGet result "_detail" (.s "unknown error")) 300)
      .null .null .null (some "gate1_input_validation")), [call])
  else
    let validation_status := pyGet result "validation_status" (.s "UNKNOWN")
    let errors_obj := pyGet result "errors" (.obj [])
    let has_errors := errors_obj.get "has_errors" (.b false)
    let has_warnings := errors_obj.get "has_warnings" (.b false)
    let error_count := errors_obj.get "error_count" (.n 0)
    let warning_count := errors_obj.get "warning_count" (.n 0)
    let error_lines := errors_obj.get "error_lines" (.arr [])
    let error_desc := pyGet result "error_code_description" (.s "")
    if validation_status.eqStr "FAILED" || pyTruthy has_errors then
      let detail := String.intercalate "; " (((pyElems error_lines).take 5).map pyStr)
      (some (build_response "BLOCKED"
        ("Conversion REFUSED. Input X12 has " ++ pyStr error_count
          ++ " validation error(s). " ++ pyStr error_desc ++ ". Details: " ++ detail)
        (.obj [("validation_status", validation_status),
               ("error_count", error_count),
               ("warning_count", warning_count)])
        error_lines (.arr []) (some "gate1_input_validation")), [call])
    else if (validation_status.eqStr "WARNING" || pyTruthy has_warnings) && strict_mode then
      (some (build_response "BLOCKED"
        ("Conversion REFUSED (strict mode). Input X12 has " ++ pyStr warning_count
          ++ " warning(s). Disable strict_mode or fix warnings before retrying.")
        (.obj [("validation_status", validation_status),
               ("warning_count", warning_count)])
        .null error_lines (some "gate1_input_validation")), [call])
    else (none, [call])

/-- The request Gate 5 issues (the content is whatever value the
orchestrator extracted from the conversion response). -/
def gate5_request (x12_output : JVal) (transaction_type : Option String) : Call :=
  let json_body : Dict :=
    if pyTruthyOpt transaction_type then
      [("content", x12_output), ("transaction_type", .s (transaction_type.getD ""))]
    else [("content", x12_output)]
  Call.postJson VALIDATE_ENDPOINT (some (.obj json_body)) []

/-- `gates.gate5_output_validation`: re-validate generated X12 output. -/
def gate5_output_validation (env : Env) (x12_output : JVal)
    (transaction_type : Option String) (source_tool : String) :
    Option Dict × List Call :=
  let call := gate5_request x12_output transaction_type
  let result := env call
  if pyTruthy (pyGet result "_error" .null) then
    (some (build_response "ERROR"
      ("Gate 5 (output validation) could not re-validate the generated X12. HTTP "
        ++ pyStr (pyGet result "_status_code" .null) ++ ": "
        ++ pyStrTake (pyGet result "_detail" (.s "unknown error")) 300)
      .null .null .null (some "gate5_output_validation")), [call])
  else
    let validation_status := pyGet result "validation_status" (.s "UNKNOWN")
    let errors_obj := pyGet result "errors" (.obj [])
    let has_errors := errors_obj.get "has_errors" (.b false)
    let error_count := errors_obj.get "error_count" (.n 0)
    let error_lines := errors_obj.get "error_lines" (.arr [])
    let error_desc := pyGet result "error_code_description" (.s "")
    if validation_status.eqStr "FAILED" || pyTruthy has_errors then
      (some (build_response "BLOCKED"
        ("X12 was generated by " ++ source_tool
          ++ " but FAILED output validation with " ++ pyStr error_count
          ++ " error(s). " ++ pyStr error_desc
          ++ ". The source data may be incomplete. DO NOT submit this to payers.")
        (.obj [("validation_status", validation_status),
               ("error_count", error_count)])
        error_lines .null (some "gate5_output_validation")), [call])
    else (none, [call])

/-- `server._FHIR_TX_MAP`: short codes → HIPAA-to-FHIR endpoint enum values. -/
def FHIR_TX_MAP : List (String × String) :=
  [("837p", "837-professional"),
   ("837i", "837-institutional"),
   ("837d", "837-dental"),
   ("835", "835-remittance"),
   ("834", "834-enrollment"),
   ("270", "270-eligibility"),
   ("271", "271-eligibility"),
   ("276", "276-claim-status"),
   ("277", "277-claim-status"),
   ("278", "278-request"),
   ("278-request", "278-request"),
   ("278-response", "278-response"),
   ("837-professional", "837-professional"),
   ("837-institutional", "837-institutional"),
   ("837-dental", "837-dental"),
   ("835-remittance", "835-remittance"),
   ("834-enrollment", "834-enrollment"),
   ("270-eligibility", "270-eligibility"),
   ("271-eligibility", "271-eligibility"),
   ("276-claim-status", "276-claim-status"),
   ("277-claim-status", "277-claim-status")]

/-- `server._fhir_tx`: map short codes to long-form names, passing
unrecognized codes through unchanged. -/
def _fhir_tx (transaction_type : Option String) : Option String :=
  if !pyTruthyOpt transaction_type then none
  else
    let t := transaction_type.getD ""
    some (((FHIR_TX_MAP.find? (fun p => p.1 == pyLower t)).map (fun p => p.2)).getD t)

/-- The `(transaction_type or detected or "").upper() or "X12"` label used
in success rulings. -/
def txLabel (transaction_type : Option String) (detected_tx : JVal) : String :=
  let base := pyOr (pyOr (optStr transaction_type) detected_tx) (.s "")
  let upper := match base with
    | .s t => pyUpper t
    | v => pyStr v
  if upper.isEmpty then "X12" else upper

/-- The conversion request of `server.convert_x12_to_fhir`: a multipart
upload with the long-form transaction type as a query parameter when one
was supplied (it is truthy there, so `_fhir_tx` returns a value). -/
def x12_to_fhir_request (x12_content : String) (transaction_type : Option String) : Call :=
  let filename :=
    if pyTruthyOpt transaction_type then
      "input." ++ transaction_type.getD "" ++ ".x12"
    else "input.x12"
  let params :=
    if pyTruthyOpt transaction_type then
      [("transaction_type", (_fhir_tx transaction_type).getD "")]
    else []
  Call.postForm "/api/v2/hipaa-to-fhir/convert" (some (filename, x12_content)) [] params

/-- `server.convert_x12_to_fhir`: Gate 1, then conversion, then success
classification from the conversion response's warnings. -/
def convert_x12_to_fhir (env : Env) (x12_content : String)
    (transaction_type : Option String) (strict_mode : Bool) : Dict × List Call :=
  match gate1_input_validation env x12_content transaction_type strict_mode with
  | (some blocked, calls) => (blocked, calls)
  | (none, calls) =>
    let call := x12_to_fhir_request x12_content transaction_type
    let result := env call
    if pyTruthy (pyGet result "_error" .null) then
      (build_response "ERROR"
        ("X12-to-FHIR conversion failed: HTTP " ++ pyStr (pyGet result "_status_code" .null)
          ++ ". " ++ pyStrTake (pyGet result "_detail" (.s "")) 300)
        .null .null .null none, calls ++ [call])
    else
      let warnings := pyGet result "warnings" (.arr [])
      let detected_tx := pyGet result "transaction_type" (optStr transaction_type)
      let status := if pyTruthy warnings then "APPROVED_WITH_CONDITIONS" else "APPROVED"
      let ruling := "X12 " ++ txLabel transaction_type detected_tx
        ++ " successfully converted to FHIR R4 Bundle."
        ++ (if pyTruthy warnings then
              " " ++ toString (pyLen warnings) ++ " warning(s) noted."
            else "")
      (build_response status ruling
        (.obj [("fhir_bundle",
                  pyOr (pyGet result "fhir_bundle" .null)
                    (pyOr (pyGet result "fhir_output" .null) (.obj result))),
               ("transaction_type", detected_tx),
               ("metadata", pyGet result "metadata" .null)])
        .null warnings none, calls ++ [call])

/-- The conversion request of `server.convert_rmap_to_x12`. -/
def rmap_to_x12_request (rmap_content : String) (transaction_type : Option String) : Call :=
  let filename :=
    if pyTruthyOpt transaction_type then
      "input." ++ transaction_type.getD "" ++ ".rmap"
    else "input.rmap"
  let params :=
    if pyTruthyOpt transaction_type then
      [("transaction_type", transaction_type.getD "")]
    else []
  Call.postForm "/api/v2/rmap-to-hipaa/convert" (some (filename, rmap_content)) [] params

/-- `server.convert_rmap_to_x12`: conversion, alternate output-key
extraction, then Gate 5 on the generated X12. -/
def convert_rmap_to_x12 (env : Env) (rmap_content : String)
    (transaction_type : Option String) : Dict × List Call :=
  let call := rmap_to_x12_request rmap_content transaction_type
  let result := env call
  if pyTruthy (pyGet result "_error" .null) then
    (build_response "ERROR"
      ("RMap-to-X12 conversion failed: HTTP " ++ pyStr (pyGet result "_status_code" .null)
        ++ ". " ++ pyStrTake (pyGet result "_detail" (.s "")) 300)
      .null .null .null none, [call])
  else
    let x12_output := pyOr (pyGet result "x12_content" .null) (pyGet result "hipaa_content" (.s ""))
    if !pyTruthy x12_output then
      (build_response "ERROR" "RMap-to-X12 conversion returned empty X12 content."
        .null .null .null none, [call])
    else
      match gate5_output_validation env x12_output transaction_type "convert_rmap_to_x12" with
      | (some g, gcalls) => (setDataKey g "x12_content" x12_output, [call] ++ gcalls)
      | (none, gcalls) =>
        let warnings := pyGet result "warnings" (.arr [])
        let detected_tx := pyGet result "transaction_type" (optStr transaction_type)
        let status := if pyTruthy warnings then "APPROVED_WITH_CONDITIONS" else "APPROVED"
        (build_response status
          ("RMap converted to " ++ txLabel transaction_type detected_tx
            ++ " X12 and passed output validation."
            ++ (if pyTruthy warnings then
                  " " ++ toString (pyLen warnings) ++ " warning(s)."
                else ""))
          (.obj [("x12_content", x12_output),
                 ("metadata", pyGet result "metadata" .null)])
          .null warnings none, [call] ++ gcalls)

/-- The conversion request of `server.generate_x12_from_database`: a JSON
POST with no body, query parameters only. -/
def db_to_x12_request (transaction_type : Option String) (record_id : Option Int) : Call :=
  let params :=
    (if pyTruthyOpt transaction_type then [("transaction_type", transaction_type.getD "")] else [])
      ++ (match record_id with
          | some r => [("record_id", toString r)]
          | none => [])
  Call.postJson "/api/v2/database-to-hipaa/convert" none params

/-- `server.generate_x12_from_database`: conversion, success flag, nested
output extraction, Gate 5, then an unconditional APPROVED record. -/
def generate_x12_from_database (env : Env) (transaction_type : Option String)
    (record_id : Option Int) : Dict × List Call :=
  let call := db_to_x12_request transaction_type record_id
  let result := env call
  if pyTruthy (pyGet result "_error" .null) then
    (build_response "ERROR"
      ("Database-to-X12 generation failed: HTTP " ++ pyStr (pyGet result "_status_code" .null)
        ++ ". " ++ pyStrTake (pyGet result "_detail" (.s "")) 300)
      .null .null .null none, [call])
  else if !pyTruthy (pyGet result "success" .null) then
    (build_response "ERROR"
      ("Database-to-X12 generation failed: " ++ pyStr (pyGet result "error" (.s "unknown")))
      (.obj result) .null .null none, [call])
  else
    let x12_output := (pyGet result "stage2_rmap_to_hipaa" (.obj [])).get "hipaa_content" (.s "")
    if !pyTruthy x12_output then
      (build_response "ERROR" "Database-to-X12 generation returned empty X12 content."
        .null .null .null none, [call])
    else
      match gate5_output_validation env x12_output transaction_type "generate_x12_from_database" with
      | (some g, gcalls) => (setDataKey g "x12_content" x12_output, [call] ++ gcalls)
      | (none, gcalls) =>
        (build_response "APPROVED"
          ("X12 " ++ txLabel transaction_type (pyGet result "transaction_type" .null)
            ++ " generated from database record "
            ++ (match record_id with
                | some r => if r == 0 then "(default)" else toString r
                | none => "(default)")
            ++ " and passed output validation.")
          (.obj [("x12_content", x12_output),
                 ("transaction_type", pyGet result "transaction_type" .null),
                 ("metadata", pyGet result "metadata" .null)])
          .null .null none, [call] ++ gcalls)

/-- The conversion request of `server.generate_claim_pdf`. -/
def claim_pdf_request (x12_837_content : String) (claim_type : String) : Call :=
  let params := if claim_type != "auto" then [("claim_type", claim_type)] else []
  Call.postForm "/api/v2/claims-to-pdf/convert" (some ("claim.x12", x12_837_content)) [] params

/-- `server.generate_claim_pdf`: substitutes `"837p"` for the validation
gate when `claim_type` is `"auto"` (the default), then converts. -/
def generate_claim_pdf (env : Env) (x12_837_content : String)
    (claim_type : String) (strict_mode : Bool) : Dict × List Call :=
  let tx_type := if claim_type != "auto" then claim_type else "837p"
  match gate1_input_validation env x12_837_content (some tx_type) strict_mode with
  | (some blocked, calls) => (blocked, calls)
  | (none, calls) =>
    let call := claim_pdf_request x12_837_content claim_type
    let result := env call
    if pyTruthy (pyGet result "_error" .null) then
      (build_response "ERROR"
        ("Claims-to-PDF conversion failed: HTTP " ++ pyStr (pyGet result "_status_code" .null)
          ++ ". " ++ pyStrTake (pyGet result "_detail" (.s "")) 300)
        .null .null .null none, calls ++ [call])
    else
      let pdf_files := pyGet result "pdf_files" (.arr [])
      let form_name := pyGet result "form_name" (.s "unknown")
      (build_response "APPROVED"
        ("Generated " ++ toString (pyLen pdf_files) ++ " " ++ pyStr form_name
          ++ " PDF claim form(s). Download via the URLs in the response.")
        (.obj [("claim_type", pyGet result "claim_type" .null),
               ("form_name", form_name),
               ("pdf_count", pyGet result "pdf_count" (.n (pyLen pdf_files))),
               ("pdf_files", pdf_files),
               ("zip_download_url", pyGet result "zip_download_url" .null),
               ("conversion_id", pyGet result "conversion_id" .null)])
        .null .null none, calls ++ [call])

/-- The four read-only sub-lookups of `server.list_supported_formats`. -/
def FORMAT_ENDPOINTS : List (String × String) :=
  [("hipaa_validate", "/api/v2/hipaa-validate/supported-transactions"),
   ("hipaa_to_rmap", "/api/v2/hipaa-to-rmap/supported-transactions"),
   ("hipaa_to_fhir", "/api/v2/hipaa-to-fhir/supported-transactions"),
   ("database_to_hipaa", "/api/v2/database-to-hipaa/transaction-types")]

/-- The fixed conversion-path listing of `server.list_supported_formats`. -/
def CONVERSION_PATHS : JVal :=
  .arr [.s "X12 → FHIR R4 (hipaa-to-fhir)",
        .s "X12 → RMap v5 (hipaa-to-rmap)",
        .s "RMap v5 → X12 (rmap-to-hipaa)",
        .s "X12 → Database (hipaa-to-database)",
        .s "Database → X12 (database-to-hipaa)",
        .s "FHIR R4 → X12 278 (fhir-to-hipaa)",
        .s "FHIR R4 → RMap v5 (fhir-to-hipaa?output_format=rmap)",
        .s "HL7 v2 / CDA → FHIR R4 (ai/hl7-convert)",
        .s "X12 837 → PDF claim forms (claims-to-pdf)"]

/-- The fixed gate description of `server.list_supported_formats`. -/
def COMPLIANCE_GATES : JVal :=
  .obj [("gate1_input_validation", .s "Validates X12 input before conversion (5010 rules)"),
        ("gate5_output_validation", .s "Re-validates generated X12 output before returning")]

/-- `server.list_supported_formats`: aggregate the four read-only lookups,
skipping any that returned an error marker, and return APPROVED. -/
def list_supported_formats (env : Env) : Dict × List Call :=
  let folded := FORMAT_ENDPOINTS.foldl
    (fun (acc : Dict × List Call) p =>
      let call := Call.get p.2 []
      let result := env call
      (if !pyTruthy (pyGet result "_error" .null) then dset acc.1 p.1 (.obj result) else acc.1,
       acc.2 ++ [call]))
    ([], [])
  let manifest := dset (dset folded.1 "conversion_paths" CONVERSION_PATHS)
    "compliance_gates" COMPLIANCE_GATES
  (build_response "APPROVED"
    "Capability manifest retrieved. See data for all supported formats and conversion paths."
    (.obj manifest) .null .null none, folded.2)

/-- An engine that answers every request with the same dictionary. -/
def constEnv (d : Dict) : Env := fun _ => d

/-- A validation response reporting FAILED with two errors. -/
def envC1 : Env := constEnv
  [("validation_status", .s "FAILED"),
   ("errors", .obj [("has_errors", .b true), ("error_count", .n 2),
     ("error_lines", .arr [.s "L1", .s "L2", .s "L3", .s "L4", .s "L5", .s "L6"])]),
   ("error_code_description", .s "E42")]

/-- A validation response reporting only warnings. -/
def envC2 : Env := constEnv
  [("validation_status", .s "WARNING"),
   ("errors", .obj [("has_warnings", .b true), ("warning_count", .n 3)])]

/-- An engine whose conversion response carries generated X12 and whose
validation response reports FAILED. -/
def envC3 : Env := constEnv
  [("x12_content", .s "ISA*GEN"),
   ("validation_status", .s "FAILED"),
   ("errors", .obj [("has_errors", .b true), ("error_count", .n 1),
     ("error_lines", .arr [.s "seg err"])]),
   ("error_code_description", .s "E9")]

/-- An engine whose database-to-X12 conversion succeeds with a non-empty
warnings list and whose validation response is clean. -/
def envC4x : Env := constEnv
  [("success", .b true),
   ("stage2_rmap_to_hipaa", .obj [("hipaa_content", .s "ISA*X12")]),
   ("warnings", .arr [.s "w1"])]

/-- An engine whose X12-to-FHIR conversion succeeds with one warning and
whose validation response is clean. -/
def envC4 : Env := constEnv [("warnings", .arr [.s "w1"])]

/-- An engine whose RMap conversion yields X12 under the primary key and
whose validation response is clean. -/
def envC7 : Env := constEnv [("x12_content", .s "ISA*OUT")]

/-- Whether an adapter call returned normally (no exception escaped). -/
def returnedOk : Except String JVal → Bool
  | .ok _ => true
  | .error _ => false

/-! Field-access lemmas for decision records. -/

@[simp] theorem build_response_status (st ru : String) (d e w : JVal) (g : Option String) :
    pyGet (build_response st ru d e w g) "status" JVal.null = JVal.s st := rfl

@[simp] theorem build_response_ruling (st ru : String) (d e w : JVal) (g : Option String) :
    pyGet (build_response st ru d e w g) "redix_ruling" JVal.null = JVal.s ru := rfl

@[simp] theorem build_response_gate (st ru : String) (d e w : JVal) (g : Option String) :
    pyGet (build_response st ru d e w g) "gate" JVal.null = optStr g := rfl

@[simp] theorem build_response_data (st ru : String) (d e w : JVal) (g : Option String) :
    pyGet (build_response st ru d e w g) "data" JVal.null = pyOr d (JVal.obj []) := rfl

@[simp] theorem build_response_errors (st ru : String) (d e w : JVal) (g : Option String) :
    pyGet (build_response st ru d e w g) "errors" JVal.null = pyOr e (JVal.arr []) := rfl

@[simp] theorem build_response_warnings (st ru : String) (d e w : JVal) (g : Option String) :
    pyGet (build_response st ru d e w g) "warnings" JVal.null = pyOr w (JVal.arr []) := rfl

/-- Gate 1 issues exactly one request: its validation call. -/
theorem gate1_calls (env : Env) (x12 : String) (tx : Option String) (strict : Bool) :
    (gate1_input_validation env x12 tx strict).2 = [gate1_request x12 tx] := by
  simp only [gate1_input_validation]
  cases h1 : pyTruthy (pyGet (env (gate1_request x12 tx)) "_error" JVal.null) <;>
    simp only [h1, Bool.false_eq_true, ite_false, ite_true]
  cases h2 : ((pyGet (env (gate1_request x12 tx)) "validation_status"
      (JVal.s "UNKNOWN")).eqStr "FAILED" ||
      pyTruthy (JVal.get (pyGet (env (gate1_request x12 tx)) "errors" (JVal.obj []))
        "has_errors" (JVal.b false))) <;>
    cases h3 : (((pyGet (env (gate1_request x12 tx)) "validation_status"
        (JVal.s "UNKNOWN")).eqStr "WARNING" ||
        pyTruthy (JVal.get (pyGet (env (gate1_request x12 tx)) "errors" (JVal.obj []))
          "has_warnings" (JVal.b false))) && strict) <;>
    simp [h2, h3]

/-- Gate 5 issues exactly one request: its validation call. -/
theorem gate5_calls (env : Env) (x : JVal) (tx : Option String) (tool : String) :
    (gate5_output_validation env x tx tool).2 = [gate5_request x tx] := by
  simp only [gate5_output_validation]
  cases h1 : pyTruthy (pyGet (env (gate5_request x tx)) "_error" JVal.null) <;>
    simp only [h1, Bool.false_eq_true, ite_false, ite_true]
  cases h2 : ((pyGet (env (gate5_request x tx)) "validation_status"
      (JVal.s "UNKNOWN")).eqStr "FAILED" ||
      pyTruthy (JVal.get (pyGet (env (gate5_request x tx)) "errors" (JVal.obj []))
        "has_errors" (JVal.b false))) <;>
    simp [h2]

/-- C8: `gate1_input_validation` and `gate5_output_validation` each return
either no verdict or a record with status BLOCKED or ERROR — never an
APPROVED or APPROVED_WITH_CONDITIONS record — and Gate 5 is silent exactly
when the validation response is reachable, not FAILED and without errors
(a clean pass yields no escalated status). -/
theorem gates_verdict_shape (env : Env) (content : String) (out : JVal)
    (tx : Option String) (strict : Bool) (tool : String) :
    ((gate1_input_validation env content tx strict).1 = none ∨
      pyGet ((gate1_input_validation env content tx strict).1.getD []) "status" JVal.null
        = JVal.s "BLOCKED" ∨
      pyGet ((gate1_input_validation env content tx strict).1.getD []) "status" JVal.null
        = JVal.s "ERROR") ∧
    ((gate5_output_validation env out tx tool).1 = none ∨
      pyGet ((gate5_output_validation env out tx tool).1.getD []) "status" JVal.null
        = JVal.s "BLOCKED" ∨
      pyGet ((gate5_output_validation env out tx tool).1.getD []) "status" JVal.null
        = JVal.s "ERROR") ∧
    ((gate5_output_validation env out tx tool).1.isNone =
      (!pyTruthy (pyGet (env (gate5_request out tx)) "_error" JVal.null) &&
       !((pyGet (env (gate5_request out tx)) "validation_status" (JVal.s "UNKNOWN")).eqStr "FAILED" ||
         pyTruthy (JVal.get (pyGet (env (gate5_request out tx)) "errors" (JVal.obj []))
           "has_errors" (JVal.b false))))) := by
  refine ⟨?_, ?_, ?_⟩
  · simp only [gate1_input_validation]
    cases h1 : pyTruthy (pyGet (env (gate1_request content tx)) "_error" JVal.null) <;>
      simp only [h1, if_true, if_false, Bool.false_eq_true, ite_false, ite_true]
    · cases h2 : ((pyGet (env (gate1_request content tx)) "validation_status"
          (JVal.s "UNKNOWN")).eqStr "FAILED" ||
          pyTruthy (JVal.get (pyGet (env (gate1_request content tx)) "errors" (JVal.obj []))
            "has_errors" (JVal.b false))) <;>
        simp only [h2, Bool.false_eq_true, ite_false, ite_true] <;>
        cases h3 : (((pyGet (env (gate1_request content tx)) "validation_status"
            (JVal.s "UNKNOWN")).eqStr "WARNING" ||
            pyTruthy (JVal.get (pyGet (env (gate1_request content tx)) "errors" (JVal.obj []))
              "has_warnings" (JVal.b false))) && strict) <;>
        simp [h3]
    · simp
  · simp only [gate5_output_validation]
    cases h1 : pyTruthy (pyGet (env (gate5_request out tx)) "_error" JVal.null) <;>
      simp only [h1, Bool.false_eq_true, ite_false, ite_true]
    · cases h2 : ((pyGet (env (gate5_request out tx)) "validation_status"
          (JVal.s "UNKNOWN")).eqStr "FAILED" ||
          pyTruthy (JVal.get (pyGet (env (gate5_request out tx)) "errors" (JVal.obj []))
            "has_errors" (JVal.b false))) <;>
        simp [h2]
    · simp
  · simp only [gate5_output_validation]
    cases h1 : pyTruthy (pyGet (env (gate5_request out tx)) "_error" JVal.null) <;>
      simp only [h1, Bool.false_eq_true, ite_false, ite_true]
    · cases h2 : ((pyGet (env (gate5_request out tx)) "validation_status"
          (JVal.s "UNKNOWN")).eqStr "FAILED" ||
          pyTruthy (JVal.get (pyGet (env (gate5_request out tx)) "errors" (JVal.obj []))
            "has_errors" (JVal.b false))) <;>
        simp [h2]
    · simp

/-- C1: when the validation response is reachable and reports FAILED or
`has_errors`, Gate 1 blocks: `convert_x12_to_fhir` returns exactly the
gate's BLOCKED verdict, whose ruling states the error count, the engine's
error-code description and up to five representative error lines, and the
only request ever issued is the validation request — the conversion
endpoint is never invoked. -/
theorem convert_x12_to_fhir_blocked_on_errors (env : Env) (x12 : String)
    (tx : Option String) (strict : Bool)
    (h1 : pyTruthy (pyGet (env (gate1_request x12 tx)) "_error" JVal.null) = false)
    (h2 : (pyGet (env (gate1_request x12 tx)) "validation_status"
        (JVal.s "UNKNOWN")).eqStr "FAILED" = true ∨
      pyTruthy (JVal.get (pyGet (env (gate1_request x12 tx)) "errors" (JVal.obj []))
        "has_errors" (JVal.b false)) = true) :
    pyGet (convert_x12_to_fhir env x12 tx strict).1 "status" JVal.null = JVal.s "BLOCKED" ∧
    pyGet (convert_x12_to_fhir env x12 tx strict).1 "redix_ruling" JVal.null =
      JVal.s ("Conversion REFUSED. Input X12 has "
        ++ pyStr (JVal.get (pyGet (env (gate1_request x12 tx)) "errors" (JVal.obj []))
            "error_count" (JVal.n 0))
        ++ " validation error(s). "
        ++ pyStr (pyGet (env (gate1_request x12 tx)) "error_code_description" (JVal.s ""))
        ++ ". Details: "
        ++ String.intercalate "; "
            (((pyElems (JVal.get (pyGet (env (gate1_request x12 tx)) "errors" (JVal.obj []))
                "error_lines" (JVal.arr []))).take 5).map pyStr)) ∧
    (convert_x12_to_fhir env x12 tx strict).2 = [gate1_request x12 tx] ∧
    (convert_x12_to_fhir env x12 tx strict).1 =
      ((gate1_input_validation env x12 tx strict).1.getD []) := by
  have hg : gate1_input_validation env x12 tx strict =
      (some (build_response "BLOCKED"
        ("Conversion REFUSED. Input X12 has "
          ++ pyStr (JVal.get (pyGet (env (gate1_request x12 tx)) "errors" (JVal.obj []))
              "error_count" (JVal.n 0))
          ++ " validation error(s). "
          ++ pyStr (pyGet (env (gate1_request x12 tx)) "error_code_description" (JVal.s ""))
          ++ ". Details: "
          ++ String.intercalate "; "
              (((pyElems (JVal.get (pyGet (env (gate1_request x12 tx)) "errors" (JVal.obj []))
                  "error_lines" (JVal.arr []))).take 5).map pyStr))
        (.obj [("validation_status",
                  pyGet (env (gate1_request x12 tx)) "validation_status" (JVal.s "UNKNOWN")),
               ("error_count",
                  JVal.get (pyGet (env (gate1_request x12 tx)) "errors" (JVal.obj []))
                    "error_count" (JVal.n 0)),
               ("warning_count",
                  JVal.get (pyGet (env (gate1_request x12 tx)) "errors" (JVal.obj []))
                    "warning_count" (JVal.n 0))])
        (JVal.get (pyGet (env (gate1_request x12 tx)) "errors" (JVal.obj []))
          "error_lines" (JVal.arr []))
        (.arr []) (some "gate1_input_validation")), [gate1_request x12 tx]) := by
    rcases h2 with h2 | h2 <;>
      simp only [gate1_input_validation, h1, h2, Bool.false_eq_true, ite_false, ite_true,
        Bool.true_or, Bool.or_true]
  rw [convert_x12_to_fhir, hg]
  simp

/-- C1 witness: a concrete FAILED validation response with two errors. -/
theorem convert_x12_to_fhir_blocked_on_errors_witness :
    (pyTruthy (pyGet (envC1 (gate1_request "ISA*00" none)) "_error" JVal.null) = false ∧
     (pyGet (envC1 (gate1_request "ISA*00" none)) "validation_status"
       (JVal.s "UNKNOWN")).eqStr "FAILED" = true) ∧
    (pyGet (convert_x12_to_fhir envC1 "ISA*00" none false).1 "status" JVal.null
        = JVal.s "BLOCKED" ∧
     pyGet (convert_x12_to_fhir envC1 "ISA*00" none false).1 "redix_ruling" JVal.null =
       JVal.s "Conversion REFUSED. Input X12 has 2 validation error(s). E42. Details: L1; L2; L3; L4; L5" ∧
     (convert_x12_to_fhir envC1 "ISA*00" none false).2 = [gate1_request "ISA*00" none] ∧
     (convert_x12_to_fhir envC1 "ISA*00" none false).1 =
       ((gate1_input_validation envC1 "ISA*00" none false).1.getD [])) :=
  ⟨⟨rfl, rfl⟩, convert_x12_to_fhir_blocked_on_errors envC1 "ISA*00" none false rfl (Or.inl rfl)⟩

/-- C2: when the validation response is reachable, not FAILED, with no
errors, and reports WARNING status or `has_warnings`, Gate 1 returns no
verdict under `strict_mode = false` and under `strict_mode = true`
returns a BLOCKED verdict whose ruling states the warning count and a
remediation hint. -/
theorem gate1_warning_policy (env : Env) (x12 : String) (tx : Option String)
    (h1 : pyTruthy (pyGet (env (gate1_request x12 tx)) "_error" JVal.null) = false)
    (h2 : (pyGet (env (gate1_request x12 tx)) "validation_status"
        (JVal.s "UNKNOWN")).eqStr "FAILED" = false)
    (h3 : pyTruthy (JVal.get (pyGet (env (gate1_request x12 tx)) "errors" (JVal.obj []))
        "has_errors" (JVal.b false)) = false)
    (h4 : (pyGet (env (gate1_request x12 tx)) "validation_status"
        (JVal.s "UNKNOWN")).eqStr "WARNING" = true ∨
      pyTruthy (JVal.get (pyGet (env (gate1_request x12 tx)) "errors" (JVal.obj []))
        "has_warnings" (JVal.b false)) = true) :
    (gate1_input_validation env x12 tx false).1 = none ∧
    (gate1_input_validation env x12 tx true).1 =
      some (build_response "BLOCKED"
        ("Conversion REFUSED (strict mode). Input X12 has "
          ++ pyStr (JVal.get (pyGet (env (gate1_request x12 tx)) "errors" (JVal.obj []))
              "warning_count" (JVal.n 0))
          ++ " warning(s). Disable strict_mode or fix warnings before retrying.")
        (.obj [("validation_status",
                  pyGet (env (gate1_request x12 tx)) "validation_status" (JVal.s "UNKNOWN")),
               ("warning_count",
                  JVal.get (pyGet (env (gate1_request x12 tx)) "errors" (JVal.obj []))
                    "warning_count" (JVal.n 0))])
        JVal.null
        (JVal.get (pyGet (env (gate1_request x12 tx)) "errors" (JVal.obj []))
          "error_lines" (JVal.arr []))
        (some "gate1_input_validation")) := by
  rcases h4 with h4 | h4 <;>
    constructor <;>
    simp only [gate1_input_validation, h1, h2, h3, h4, Bool.false_eq_true, ite_false,
      ite_true, Bool.or_false, Bool.false_or, Bool.true_or, Bool.or_true, Bool.and_true,
      Bool.and_false, Bool.true_and, Bool.false_and]

/-- C2 witness: a concrete WARNING-only validation response. -/
theorem gate1_warning_policy_witness :
    (pyTruthy (pyGet (envC2 (gate1_request "ISA*01" none)) "_error" JVal.null) = false ∧
     (pyGet (envC2 (gate1_request "ISA*01" none)) "validation_status"
       (JVal.s "UNKNOWN")).eqStr "FAILED" = false ∧
     pyTruthy (JVal.get (pyGet (envC2 (gate1_request "ISA*01" none)) "errors" (JVal.obj []))
       "has_errors" (JVal.b false)) = false ∧
     (pyGet (envC2 (gate1_request "ISA*01" none)) "validation_status"
       (JVal.s "UNKNOWN")).eqStr "WARNING" = true) ∧
    ((gate1_input_validation envC2 "ISA*01" none false).1 = none ∧
     pyGet ((gate1_input_validation envC2 "ISA*01" none true).1.getD []) "status" JVal.null
       = JVal.s "BLOCKED" ∧
     pyGet ((gate1_input_validation envC2 "ISA*01" none true).1.getD []) "redix_ruling" JVal.null
       = JVal.s "Conversion REFUSED (strict mode). Input X12 has 3 warning(s). Disable strict_mode or fix warnings before retrying.") :=
  ⟨⟨rfl, rfl, rfl, rfl⟩, by
    have h := gate1_warning_policy envC2 "ISA*01" none rfl rfl rfl (Or.inl rfl)
    exact ⟨h.1, by rw [h.2]; rfl, by rw [h.2]; rfl⟩⟩

/-- C3: when an RMap-to-X12 conversion succeeds but the generated X12
fails Gate 5 re-validation (FAILED or `has_errors`), `convert_rmap_to_x12`
returns a BLOCKED record from `gate5_output_validation` whose
`data.x12_content` is the generated (rejected) X12 and whose ruling names
the source tool and carries the do-not-submit admonition. -/
theorem convert_rmap_to_x12_gate5_block (env : Env) (rmap : String) (tx : Option String)
    (hr1 : pyTruthy (pyGet (env (rmap_to_x12_request rmap tx)) "_error" JVal.null) = false)
    (hr2 : pyTruthy (pyOr (pyGet (env (rmap_to_x12_request rmap tx)) "x12_content" JVal.null)
      (pyGet (env (rmap_to_x12_request rmap tx)) "hipaa_content" (JVal.s ""))) = true)
    (hv1 : pyTruthy (pyGet (env (gate5_request
        (pyOr (pyGet (env (rmap_to_x12_request rmap tx)) "x12_content" JVal.null)
          (pyGet (env (rmap_to_x12_request rmap tx)) "hipaa_content" (JVal.s ""))) tx))
      "_error" JVal.null) = false)
    (hv2 : (pyGet (env (gate5_request
          (pyOr (pyGet (env (rmap_to_x12_request rmap tx)) "x12_content" JVal.null)
            (pyGet (env (rmap_to_x12_request rmap tx)) "hipaa_content" (JVal.s ""))) tx))
        "validation_status" (JVal.s "UNKNOWN")).eqStr "FAILED" = true ∨
      pyTruthy (JVal.get (pyGet (env (gate5_request
          (pyOr (pyGet (env (rmap_to_x12_request rmap tx)) "x12_content" JVal.null)
            (pyGet (env (rmap_to_x12_request rmap tx)) "hipaa_content" (JVal.s ""))) tx))
        "errors" (JVal.obj [])) "has_errors" (JVal.b false)) = true) :
    pyGet (convert_rmap_to_x12 env rmap tx).1 "status" JVal.null = JVal.s "BLOCKED" ∧
    pyGet (convert_rmap_to_x12 env rmap tx).1 "gate" JVal.null
      = JVal.s "gate5_output_validation" ∧
    JVal.get (pyGet (convert_rmap_to_x12 env rmap tx).1 "data" JVal.null)
        "x12_content" JVal.null =
      pyOr (pyGet (env (rmap_to_x12_request rmap tx)) "x12_content" JVal.null)
        (pyGet (env (rmap_to_x12_request rmap tx)) "hipaa_content" (JVal.s "")) ∧
    pyGet (convert_rmap_to_x12 env rmap tx).1 "redix_ruling" JVal.null =
      JVal.s ("X12 was generated by convert_rmap_to_x12 but FAILED output validation with "
        ++ pyStr (JVal.get (pyGet (env (gate5_request
            (pyOr (pyGet (env (rmap_to_x12_request rmap tx)) "x12_content" JVal.null)
              (pyGet (env (rmap_to_x12_request rmap tx)) "hipaa_content" (JVal.s ""))) tx))
            "errors" (JVal.obj [])) "error_count" (JVal.n 0))
        ++ " error(s). "
        ++ pyStr (pyGet (env (gate5_request
            (pyOr (pyGet (env (rmap_to_x12_request rmap tx)) "x12_content" JVal.null)
              (pyGet (env (rmap_to_x12_request rmap tx)) "hipaa_content" (JVal.s ""))) tx))
            "error_code_description" (JVal.s ""))
        ++ ". The source data may be incomplete. DO NOT submit this to payers.") ∧
    (convert_rmap_to_x12 env rmap tx).2 =
      [rmap_to_x12_request rmap tx,
       gate5_request (pyOr (pyGet (env (rmap_to_x12_request rmap tx)) "x12_content" JVal.null)
         (pyGet (env (rmap_to_x12_request rmap tx)) "hipaa_content" (JVal.s ""))) tx] := by
  have hg : gate5_output_validation env
      (pyOr (pyGet (env (rmap_to_x12_request rmap tx)) "x12_content" JVal.null)
        (pyGet (env (rmap_to_x12_request rmap tx)) "hipaa_content" (JVal.s ""))) tx
      "convert_rmap_to_x12" =
      (some (build_response "BLOCKED"
        ("X12 was generated by convert_rmap_to_x12 but FAILED output validation with "
          ++ pyStr (JVal.get (pyGet (env (gate5_request
              (pyOr (pyGet (env (rmap_to_x12_request rmap tx)) "x12_content" JVal.null)
                (pyGet (env (rmap_to_x12_request rmap tx)) "hipaa_content" (JVal.s ""))) tx))
              "errors" (JVal.obj [])) "error_count" (JVal.n 0))
          ++ " error(s). "
          ++ pyStr (pyGet (env (gate5_request
              (pyOr (pyGet (env (rmap_to_x12_request rmap tx)) "x12_content" JVal.null)
                (pyGet (env (rmap_to_x12_request rmap tx)) "hipaa_content" (JVal.s ""))) tx))
              "error_code_description" (JVal.s ""))
          ++ ". The source data may be incomplete. DO NOT submit this to payers.")
        (.obj [("validation_status",
                  pyGet (env (gate5_request
                    (pyOr (pyGet (env (rmap_to_x12_request rmap tx)) "x12_content" JVal.null)
                      (pyGet (env (rmap_to_x12_request rmap tx)) "hipaa_content" (JVal.s "")))
                    tx)) "validation_status" (JVal.s "UNKNOWN")),
               ("error_count",
                  JVal.get (pyGet (env (gate5_request
                    (pyOr (pyGet (env (rmap_to_x12_request rmap tx)) "x12_content" JVal.null)
                      (pyGet (env (rmap_to_x12_request rmap tx)) "hipaa_content" (JVal.s "")))
                    tx)) "errors" (JVal.obj [])) "error_count" (JVal.n 0))])
        (JVal.get (pyGet (env (gate5_request
            (pyOr (pyGet (env (rmap_to_x12_request rmap tx)) "x12_content" JVal.null)
              (pyGet (env (rmap_to_x12_request rmap tx)) "hipaa_content" (JVal.s ""))) tx))
          "errors" (JVal.obj [])) "error_lines" (JVal.arr []))
        JVal.null (some "gate5_output_validation")),
       [gate5_request (pyOr (pyGet (env (rmap_to_x12_request rmap tx)) "x12_content" JVal.null)
         (pyGet (env (rmap_to_x12_request rmap tx)) "hipaa_content" (JVal.s ""))) tx]) := by
    rcases hv2 with hv2 | hv2 <;>
      (simp only [gate5_output_validation, hv1, hv2, Bool.false_eq_true, ite_false, ite_true,
        Bool.true_or, Bool.or_true]; rfl)
  rw [convert_rmap_to_x12, hr1]
  simp only [Bool.false_eq_true, ite_false, hr2, Bool.not_true, hg]
  refine ⟨?_, ?_, ?_, ?_, rfl⟩ <;>
    simp [setDataKey, dset, build_response, pyGet, dget?, pyOr, pyTruthy, JVal.get,
      JVal.objFields, optStr, List.find?, List.any]

/-- C3 witness: a conversion that yields `ISA*GEN` which then fails
re-validation with one error. -/
theorem convert_rmap_to_x12_gate5_block_witness :
    (pyTruthy (pyGet (envC3 (rmap_to_x12_request "RMAP" none)) "_error" JVal.null) = false ∧
     pyTruthy (pyOr (pyGet (envC3 (rmap_to_x12_request "RMAP" none)) "x12_content" JVal.null)
       (pyGet (envC3 (rmap_to_x12_request "RMAP" none)) "hipaa_content" (JVal.s ""))) = true) ∧
    (pyGet (convert_rmap_to_x12 envC3 "RMAP" none).1 "status" JVal.null = JVal.s "BLOCKED" ∧
     pyGet (convert_rmap_to_x12 envC3 "RMAP" none).1 "gate" JVal.null
       = JVal.s "gate5_output_validation" ∧
     JVal.get (pyGet (convert_rmap_to_x12 envC3 "RMAP" none).1 "data" JVal.null)
       "x12_content" JVal.null = JVal.s "ISA*GEN" ∧
     pyGet (convert_rmap_to_x12 envC3 "RMAP" none).1 "redix_ruling" JVal.null =
       JVal.s "X12 was generated by convert_rmap_to_x12 but FAILED output validation with 1 error(s). E9. The source data may be incomplete. DO NOT submit this to payers." ∧
     (convert_rmap_to_x12 envC3 "RMAP" none).2 =
       [rmap_to_x12_request "RMAP" none, gate5_request (JVal.s "ISA*GEN") none]) :=
  ⟨⟨rfl, rfl⟩, convert_rmap_to_x12_gate5_block envC3 "RMAP" none rfl rfl rfl (Or.inl rfl)⟩

/-- C4 counterexample: `generate_x12_from_database` ignores the conversion
response's warnings — here the response carries the non-empty warnings
list `["w1"]`, yet the returned record has status APPROVED (not
APPROVED_WITH_CONDITIONS) and an empty warnings list. -/
theorem generate_x12_from_database_drops_warnings :
    pyGet (envC4x (db_to_x12_request none none)) "warnings" (JVal.arr [])
      = JVal.arr [JVal.s "w1"] ∧
    pyGet (generate_x12_from_database envC4x none none).1 "status" JVal.null
      = JVal.s "APPROVED" ∧
    pyGet (generate_x12_from_database envC4x none none).1 "warnings" JVal.null
      = JVal.arr [] :=
  ⟨rfl, rfl, rfl⟩

/-- C4 (amended): for `convert_x12_to_fhir` — and the other orchestrators
that read the conversion response's `warnings` key — a successful
conversion is APPROVED_WITH_CONDITIONS carrying the warnings list exactly
when that list is non-empty, and APPROVED otherwise; but
`generate_x12_from_database` never reads the warnings key and returns
plain APPROVED. -/
theorem convert_x12_to_fhir_warning_classification (env : Env) (x12 : String)
    (tx : Option String) (strict : Bool)
    (hg : (gate1_input_validation env x12 tx strict).1 = none)
    (hr : pyTruthy (pyGet (env (x12_to_fhir_request x12 tx)) "_error" JVal.null) = false) :
    pyGet (convert_x12_to_fhir env x12 tx strict).1 "status" JVal.null =
      JVal.s (if pyTruthy (pyGet (env (x12_to_fhir_request x12 tx)) "warnings" (JVal.arr []))
        then "APPROVED_WITH_CONDITIONS" else "APPROVED") ∧
    pyGet (convert_x12_to_fhir env x12 tx strict).1 "warnings" JVal.null =
      pyOr (pyGet (env (x12_to_fhir_request x12 tx)) "warnings" (JVal.arr []))
        (JVal.arr []) := by
  have hG : gate1_input_validation env x12 tx strict =
      (none, (gate1_input_validation env x12 tx strict).2) := by
    rcases h : gate1_input_validation env x12 tx strict with ⟨v, calls⟩
    rw [h] at hg
    simp only at hg
    subst hg
    rfl
  rw [convert_x12_to_fhir, hG]
  simp only [hr, Bool.false_eq_true, ite_false]
  cases hw : pyTruthy (pyGet (env (x12_to_fhir_request x12 tx)) "warnings" (JVal.arr [])) <;>
    simp [hw]

/-- C4 witness: a clean validation pass followed by a conversion response
with one warning yields APPROVED_WITH_CONDITIONS carrying that warning. -/
theorem convert_x12_to_fhir_warning_classification_witness :
    ((gate1_input_validation envC4 "ISA*OK" none false).1 = none ∧
     pyTruthy (pyGet (envC4 (x12_to_fhir_request "ISA*OK" none)) "_error" JVal.null) = false) ∧
    (pyGet (convert_x12_to_fhir envC4 "ISA*OK" none false).1 "status" JVal.null
       = JVal.s "APPROVED_WITH_CONDITIONS" ∧
     pyGet (convert_x12_to_fhir envC4 "ISA*OK" none false).1 "warnings" JVal.null
       = JVal.arr [JVal.s "w1"]) :=
  ⟨⟨rfl, rfl⟩, convert_x12_to_fhir_warning_classification envC4 "ISA*OK" none false rfl rfl⟩

/-- C5 counterexample: calling `generate_claim_pdf` with the default
`claim_type = "auto"` (the caller omitted the type) issues a validation
request whose body carries the locally substituted
`transaction_type = "837p"`. -/
theorem generate_claim_pdf_defaults_tx_type :
    (generate_claim_pdf (constEnv []) "ISA*TEST" "auto" false).2.head?
      = some (gate1_request "ISA*TEST" (some "837p")) ∧
    Call.jsonBody (gate1_request "ISA*TEST" (some "837p"))
      = some (JVal.obj [("content", JVal.s "ISA*TEST"),
                        ("transaction_type", JVal.s "837p")]) :=
  ⟨rfl, rfl⟩

/-- C5 (amended): outside `generate_claim_pdf` (which substitutes "837p"
for its validation request when `claim_type` is "auto"), an omitted or
empty transaction type puts no `transaction_type` field in the validation
body or the conversion query parameters, and the only local transformation
of a supplied code is the fixed lookup on the lowercased code, with
unrecognized codes passed through unchanged. -/
theorem transaction_type_passthrough (x12 t : String)
    (ht : t.isEmpty = false)
    (hf : FHIR_TX_MAP.find? (fun p => p.1 == pyLower t) = none) :
    Call.jsonBody (gate1_request x12 none) = some (JVal.obj [("content", JVal.s x12)]) ∧
    Call.jsonBody (gate1_request x12 (some "")) = some (JVal.obj [("content", JVal.s x12)]) ∧
    Call.queryParams (x12_to_fhir_request x12 none) = [] ∧
    Call.queryParams (rmap_to_x12_request x12 none) = [] ∧
    Call.queryParams (db_to_x12_request none none) = [] ∧
    _fhir_tx (some t) = some t ∧
    _fhir_tx none = none := by
  refine ⟨rfl, rfl, rfl, rfl, rfl, ?_, rfl⟩
  simp [_fhir_tx, pyTruthyOpt, ht, hf]

/-- C5 witness: the unrecognized code "zzz" passes through unchanged and
omitted types generate no `transaction_type` field. -/
theorem transaction_type_passthrough_witness :
    (String.isEmpty "zzz" = false ∧
     FHIR_TX_MAP.find? (fun p => p.1 == pyLower "zzz") = none) ∧
    (Call.jsonBody (gate1_request "ISA*A" none)
       = some (JVal.obj [("content", JVal.s "ISA*A")]) ∧
     Call.jsonBody (gate1_request "ISA*A" (some ""))
       = some (JVal.obj [("content", JVal.s "ISA*A")]) ∧
     Call.queryParams (x12_to_fhir_request "ISA*A" none) = [] ∧
     Call.queryParams (rmap_to_x12_request "ISA*A" none) = [] ∧
     Call.queryParams (db_to_x12_request none none) = [] ∧
     _fhir_tx (some "zzz") = some "zzz" ∧
     _fhir_tx none = none) :=
  ⟨⟨rfl, rfl⟩, transaction_type_passthrough "ISA*A" "zzz" rfl rfl⟩

/-- C6 counterexample: the adapter is not total — a 200 response declaring
a JSON content type whose body does not parse as JSON makes `post_json`
raise a JSON decode error past its boundary instead of returning a result
dict. -/
theorem post_json_raises_on_bad_json :
    RedixAPIClient.post_json "http://host/api"
      (.response 200 "application/json" "not json" none) = .error "JSONDecodeError" :=
  rfl

/-- C6 (amended): on an error-range HTTP status each client method returns
an error marker with the status code and the response body truncated to
2000 characters, and on a transport failure an error marker with status
code 0 and the failure description; the methods return normally whenever
the body parses as JSON or the content type does not declare JSON, but a
declared-JSON unparseable body raises, and a parsed non-object is returned
as-is. -/
theorem transport_adapter_error_markers (url text d ct ct2 : String) (st st2 : Nat)
    (j : JVal) (jo jo2 : Option JVal)
    (h1 : 400 ≤ st) (h2 : hasSubstr ct2 "application/json" = false) :
    RedixAPIClient.post_json url (.response st ct text jo)
      = .ok (.obj [("_error", JVal.b true), ("_status_code", JVal.n st),
                   ("_detail", JVal.s (text.take 2000)), ("_url", JVal.s url)]) ∧
    RedixAPIClient.post_form url (.response st ct text jo)
      = .ok (.obj [("_error", JVal.b true), ("_status_code", JVal.n st),
                   ("_detail", JVal.s (text.take 2000)), ("_url", JVal.s url)]) ∧
    RedixAPIClient.get url (.response st ct text jo)
      = .ok (.obj [("_error", JVal.b true), ("_status_code", JVal.n st),
                   ("_detail", JVal.s (text.take 2000)), ("_url", JVal.s url)]) ∧
    RedixAPIClient.post_json url (.transportError d)
      = .ok (.obj [("_error", JVal.b true), ("_status_code", JVal.n 0),
                   ("_detail", JVal.s (d.take 2000)), ("_url", JVal.s url)]) ∧
    RedixAPIClient.post_form url (.transportError d)
      = .ok (.obj [("_error", JVal.b true), ("_status_code", JVal.n 0),
                   ("_detail", JVal.s (d.take 2000)), ("_url", JVal.s url)]) ∧
    RedixAPIClient.get url (.transportError d)
      = .ok (.obj [("_error", JVal.b true), ("_status_code", JVal.n 0),
                   ("_detail", JVal.s (d.take 2000)), ("_url", JVal.s url)]) ∧
    returnedOk (RedixAPIClient.post_json url (.response st2 ct text (some j))) = true ∧
    returnedOk (RedixAPIClient.post_json url (.response st2 ct2 text jo2)) = true := by
  have hns : ¬(200 ≤ st ∧ st < 300) := by omega
  refine ⟨?_, ?_, ?_, rfl, rfl, rfl, ?_, ?_⟩
  · simp [RedixAPIClient.post_json, RedixAPIClient.handle, RedixAPIClient._error_dict, hns]
  · simp [RedixAPIClient.post_form, RedixAPIClient.handle, RedixAPIClient._error_dict, hns]
  · simp [RedixAPIClient.get, RedixAPIClient.handle, RedixAPIClient._error_dict, hns]
  · by_cases hs : 200 ≤ st2 ∧ st2 < 300 <;>
      cases hct : hasSubstr ct "application/json" <;>
      simp [RedixAPIClient.post_json, RedixAPIClient.handle, hs, hct, returnedOk]
  · by_cases hs : 200 ≤ st2 ∧ st2 < 300 <;>
      simp [RedixAPIClient.post_json, RedixAPIClient.handle, hs, h2, returnedOk]

/-- C6 witness: a 404 with an HTML body, a refused connection, a parsed
JSON body, and a plain-text body. -/
theorem transport_adapter_error_markers_witness :
    (400 ≤ 404 ∧ hasSubstr "text/plain" "application/json" = false) ∧
    (RedixAPIClient.post_json "http://h" (.response 404 "text/html" "NOT FOUND" none)
       = .ok (.obj [("_error", JVal.b true), ("_status_code", JVal.n 404),
                    ("_detail", JVal.s (String.take "NOT FOUND" 2000)), ("_url", JVal.s "http://h")]) ∧
     RedixAPIClient.post_form "http://h" (.response 404 "text/html" "NOT FOUND" none)
       = .ok (.obj [("_error", JVal.b true), ("_status_code", JVal.n 404),
                    ("_detail", JVal.s (String.take "NOT FOUND" 2000)), ("_url", JVal.s "http://h")]) ∧
     RedixAPIClient.get "http://h" (.response 404 "text/html" "NOT FOUND" none)
       = .ok (.obj [("_error", JVal.b true), ("_status_code", JVal.n 404),
                    ("_detail", JVal.s (String.take "NOT FOUND" 2000)), ("_url", JVal.s "http://h")]) ∧
     RedixAPIClient.post_json "http://h" (.transportError "conn refused")
       = .ok (.obj [("_error", JVal.b true), ("_status_code", JVal.n 0),
                    ("_detail", JVal.s (String.take "conn refused" 2000)), ("_url", JVal.s "http://h")]) ∧
     RedixAPIClient.post_form "http://h" (.transportError "conn refused")
       = .ok (.obj [("_error", JVal.b true), ("_status_code", JVal.n 0),
                    ("_detail", JVal.s (String.take "conn refused" 2000)), ("_url", JVal.s "http://h")]) ∧
     RedixAPIClient.get "http://h" (.transportError "conn refused")
       = .ok (.obj [("_error", JVal.b true), ("_status_code", JVal.n 0),
                    ("_detail", JVal.s (String.take "conn refused" 2000)), ("_url", JVal.s "http://h")]) ∧
     returnedOk (RedixAPIClient.post_json "http://h"
       (.response 200 "text/html" "NOT FOUND" (some (JVal.obj [])))) = true ∧
     returnedOk (RedixAPIClient.post_json "http://h"
       (.response 200 "text/plain" "NOT FOUND" none)) = true) :=
  ⟨⟨by decide, rfl⟩,
   transport_adapter_error_markers "http://h" "NOT FOUND" "conn refused" "text/html"
     "text/plain" 404 200 (JVal.obj []) none none (by decide) rfl⟩

/-- C7: on a transport-successful RMap-to-X12 conversion response, the
generated text is the `x12_content` value when that is non-empty —
Gate 5 then validates exactly that value — otherwise the `hipaa_content`
value; when both leave the text empty the operation returns the
empty-output ERROR record and stops, never a success status. -/
theorem convert_rmap_to_x12_output_keys (env : Env) (rmap : String) (tx : Option String)
    (h1 : pyTruthy (pyGet (env (rmap_to_x12_request rmap tx)) "_error" JVal.null) = false) :
    (pyTruthy (pyOr (pyGet (env (rmap_to_x12_request rmap tx)) "x12_content" JVal.null)
        (pyGet (env (rmap_to_x12_request rmap tx)) "hipaa_content" (JVal.s ""))) = false →
      (convert_rmap_to_x12 env rmap tx).1 =
        build_response "ERROR" "RMap-to-X12 conversion returned empty X12 content."
          JVal.null JVal.null JVal.null none ∧
      (convert_rmap_to_x12 env rmap tx).2 = [rmap_to_x12_request rmap tx]) ∧
    (pyTruthy (pyGet (env (rmap_to_x12_request rmap tx)) "x12_content" JVal.null) = true →
      (convert_rmap_to_x12 env rmap tx).2 =
        [rmap_to_x12_request rmap tx,
         gate5_request (pyGet (env (rmap_to_x12_request rmap tx)) "x12_content" JVal.null) tx]) ∧
    (pyTruthy (pyGet (env (rmap_to_x12_request rmap tx)) "x12_content" JVal.null) = false →
      pyTruthy (pyGet (env (rmap_to_x12_request rmap tx)) "hipaa_content" (JVal.s "")) = true →
      (convert_rmap_to_x12 env rmap tx).2 =
        [rmap_to_x12_request rmap tx,
         gate5_request (pyGet (env (rmap_to_x12_request rmap tx)) "hipaa_content" (JVal.s "")) tx]) := by
  refine ⟨?_, ?_, ?_⟩
  · intro hempty
    rw [convert_rmap_to_x12, h1]
    simp only [Bool.false_eq_true, ite_false, hempty, Bool.not_false, ite_true]
    constructor <;> trivial
  · intro hx
    have hor : pyOr (pyGet (env (rmap_to_x12_request rmap tx)) "x12_content" JVal.null)
        (pyGet (env (rmap_to_x12_request rmap tx)) "hipaa_content" (JVal.s "")) =
        pyGet (env (rmap_to_x12_request rmap tx)) "x12_content" JVal.null := by
      simp [pyOr, hx]
    rw [convert_rmap_to_x12, h1]
    simp only [Bool.false_eq_true, ite_false, hor, hx, Bool.not_true]
    have hc := gate5_calls env
      (pyGet (env (rmap_to_x12_request rmap tx)) "x12_content" JVal.null) tx
      "convert_rmap_to_x12"
    rcases hG : gate5_output_validation env
        (pyGet (env (rmap_to_x12_request rmap tx)) "x12_content" JVal.null) tx
        "convert_rmap_to_x12" with ⟨v, calls⟩
    rw [hG] at hc
    have hc2 : calls = [gate5_request
        (pyGet (env (rmap_to_x12_request rmap tx)) "x12_content" JVal.null) tx] := by
      simpa using hc
    cases v <;> simp [hc2]
  · intro hx hh
    have hor : pyOr (pyGet (env (rmap_to_x12_request rmap tx)) "x12_content" JVal.null)
        (pyGet (env (rmap_to_x12_request rmap tx)) "hipaa_content" (JVal.s "")) =
        pyGet (env (rmap_to_x12_request rmap tx)) "hipaa_content" (JVal.s "") := by
      simp [pyOr, hx]
    rw [convert_rmap_to_x12, h1]
    simp only [Bool.false_eq_true, ite_false, hor, hh, Bool.not_true]
    have hc := gate5_calls env
      (pyGet (env (rmap_to_x12_request rmap tx)) "hipaa_content" (JVal.s "")) tx
      "convert_rmap_to_x12"
    rcases hG : gate5_output_validation env
        (pyGet (env (rmap_to_x12_request rmap tx)) "hipaa_content" (JVal.s "")) tx
        "convert_rmap_to_x12" with ⟨v, calls⟩
    rw [hG] at hc
    have hc2 : calls = [gate5_request
        (pyGet (env (rmap_to_x12_request rmap tx)) "hipaa_content" (JVal.s "")) tx] := by
      simpa using hc
    cases v <;> simp [hc2]

/-- C7 witness: a conversion response carrying `ISA*OUT` under the
primary key. -/
theorem convert_rmap_to_x12_output_keys_witness :
    (pyTruthy (pyGet (envC7 (rmap_to_x12_request "RMAP" none)) "_error" JVal.null) = false) ∧
    ((pyTruthy (pyOr (pyGet (envC7 (rmap_to_x12_request "RMAP" none)) "x12_content" JVal.null)
        (pyGet (envC7 (rmap_to_x12_request "RMAP" none)) "hipaa_content" (JVal.s ""))) = false →
      (convert_rmap_to_x12 envC7 "RMAP" none).1 =
        build_response "ERROR" "RMap-to-X12 conversion returned empty X12 content."
          JVal.null JVal.null JVal.null none ∧
      (convert_rmap_to_x12 envC7 "RMAP" none).2 = [rmap_to_x12_request "RMAP" none]) ∧
    (pyTruthy (pyGet (envC7 (rmap_to_x12_request "RMAP" none)) "x12_content" JVal.null) = true →
      (convert_rmap_to_x12 envC7 "RMAP" none).2 =
        [rmap_to_x12_request "RMAP" none,
         gate5_request (pyGet (envC7 (rmap_to_x12_request "RMAP" none)) "x12_content" JVal.null) none]) ∧
    (pyTruthy (pyGet (envC7 (rmap_to_x12_request "RMAP" none)) "x12_content" JVal.null) = false →
      pyTruthy (pyGet (envC7 (rmap_to_x12_request "RMAP" none)) "hipaa_content" (JVal.s "")) = true →
      (convert_rmap_to_x12 envC7 "RMAP" none).2 =
        [rmap_to_x12_request "RMAP" none,
         gate5_request (pyGet (envC7 (rmap_to_x12_request "RMAP" none)) "hipaa_content" (JVal.s "")) none])) :=
  ⟨rfl, convert_rmap_to_x12_output_keys envC7 "RMAP" none rfl⟩

/-- C10: on a reachable validation response that lacks the expected
fields — no `validation_status` (read as UNKNOWN) and no
`has_errors`/`has_warnings` flags (read as false) — both gates treat the
content as a clean pass and return no verdict, for every `strict_mode`. -/
theorem gates_default_clean_pass (env : Env) (x12 : String) (tx : Option String)
    (strict : Bool) (tool : String)
    (h1 : pyTruthy (pyGet (env (gate1_request x12 tx)) "_error" JVal.null) = false)
    (hv : dget? (env (gate1_request x12 tx)) "validation_status" = none)
    (he : dget? (JVal.objFields (pyGet (env (gate1_request x12 tx)) "errors" (JVal.obj [])))
      "has_errors" = none)
    (hw : dget? (JVal.objFields (pyGet (env (gate1_request x12 tx)) "errors" (JVal.obj [])))
      "has_warnings" = none) :
    (gate1_input_validation env x12 tx strict).1 = none ∧
    (gate5_output_validation env (JVal.s x12) tx tool).1 = none := by
  have hvs : pyGet (env (gate1_request x12 tx)) "validation_status" (JVal.s "UNKNOWN")
      = JVal.s "UNKNOWN" := by
    rw [pyGet, hv]
    rfl
  have hhe : JVal.get (pyGet (env (gate1_request x12 tx)) "errors" (JVal.obj []))
      "has_errors" (JVal.b false) = JVal.b false := by
    rw [JVal.get, pyGet, he]
    rfl
  have hhw : JVal.get (pyGet (env (gate1_request x12 tx)) "errors" (JVal.obj []))
      "has_warnings" (JVal.b false) = JVal.b false := by
    rw [JVal.get, pyGet, hw]
    rfl
  have hreq : gate5_request (JVal.s x12) tx = gate1_request x12 tx := rfl
  constructor
  · simp only [gate1_input_validation, h1, Bool.false_eq_true, ite_false, hvs, hhe, hhw]
    simp [JVal.eqStr, pyTruthy]
  · simp only [gate5_output_validation, hreq, h1, Bool.false_eq_true, ite_false, hvs, hhe]
    simp [JVal.eqStr, pyTruthy]

/-- C10 witness: the empty response dictionary, under strict mode. -/
theorem gates_default_clean_pass_witness :
    (pyTruthy (pyGet (constEnv [] (gate1_request "ISA*W" none)) "_error" JVal.null) = false ∧
     dget? (constEnv [] (gate1_request "ISA*W" none)) "validation_status" = none ∧
     dget? (JVal.objFields (pyGet (constEnv [] (gate1_request "ISA*W" none)) "errors"
       (JVal.obj []))) "has_errors" = none ∧
     dget? (JVal.objFields (pyGet (constEnv [] (gate1_request "ISA*W" none)) "errors"
       (JVal.obj []))) "has_warnings" = none) ∧
    ((gate1_input_validation (constEnv []) "ISA*W" none true).1 = none ∧
     (gate5_output_validation (constEnv []) (JVal.s "ISA*W") none "convert_fhir_to_x12").1
       = none) :=
  ⟨⟨rfl, rfl, rfl, rfl⟩,
   gates_default_clean_pass (constEnv []) "ISA*W" none true "convert_fhir_to_x12"
     rfl rfl rfl rfl⟩

set_option maxHeartbeats 1600000 in
/-- C9: `list_supported_formats` applies no gates — its only traffic is the
four read-only GET sub-lookups, in order — and returns an APPROVED record
whose manifest contains each sub-lookup's payload exactly when that lookup
did not yield an error marker (an errored lookup is omitted, the rest are
kept). -/
theorem list_supported_formats_partial_manifest (env : Env) :
    pyGet (list_supported_formats env).1 "status" JVal.null = JVal.s "APPROVED" ∧
    (list_supported_formats env).2 =
      [Call.get "/api/v2/hipaa-validate/supported-transactions" [],
       Call.get "/api/v2/hipaa-to-rmap/supported-transactions" [],
       Call.get "/api/v2/hipaa-to-fhir/supported-transactions" [],
       Call.get "/api/v2/database-to-hipaa/transaction-types" []] ∧
    dget? (JVal.objFields (pyGet (list_supported_formats env).1 "data" JVal.null))
        "hipaa_validate" =
      (if pyTruthy (pyGet (env (Call.get "/api/v2/hipaa-validate/supported-transactions" []))
          "_error" JVal.null)
       then none
       else some (JVal.obj (env (Call.get "/api/v2/hipaa-validate/supported-transactions" [])))) ∧
    dget? (JVal.objFields (pyGet (list_supported_formats env).1 "data" JVal.null))
        "hipaa_to_rmap" =
      (if pyTruthy (pyGet (env (Call.get "/api/v2/hipaa-to-rmap/supported-transactions" []))
          "_error" JVal.null)
       then none
       else some (JVal.obj (env (Call.get "/api/v2/hipaa-to-rmap/supported-transactions" [])))) ∧
    dget? (JVal.objFields (pyGet (list_supported_formats env).1 "data" JVal.null))
        "hipaa_to_fhir" =
      (if pyTruthy (pyGet (env (Call.get "/api/v2/hipaa-to-fhir/supported-transactions" []))
          "_error" JVal.null)
       then none
       else some (JVal.obj (env (Call.get "/api/v2/hipaa-to-fhir/supported-transactions" [])))) ∧
    dget? (JVal.objFields (pyGet (list_supported_formats env).1 "data" JVal.null))
        "database_to_hipaa" =
      (if pyTruthy (pyGet (env (Call.get "/api/v2/database-to-hipaa/transaction-types" []))
          "_error" JVal.null)
       then none
       else some (JVal.obj (env (Call.get "/api/v2/database-to-hipaa/transaction-types" [])))) := by
  cases h1 : pyTruthy (pyGet (env (Call.get "/api/v2/hipaa-validate/supported-transactions" []))
      "_error" JVal.null) <;>
    cases h2 : pyTruthy (pyGet (env (Call.get "/api/v2/hipaa-to-rmap/supported-transactions" []))
      "_error" JVal.null) <;>
    cases h3 : pyTruthy (pyGet (env (Call.get "/api/v2/hipaa-to-fhir/supported-transactions" []))
      "_error" JVal.null) <;>
    cases h4 : pyTruthy (pyGet (env (Call.get "/api/v2/database-to-hipaa/transaction-types" []))
      "_error" JVal.null) <;>
    (simp only [list_supported_formats, FORMAT_ENDPOINTS, List.foldl, h1, h2, h3, h4,
      Bool.not_true, Bool.not_false, ite_true, ite_false, Bool.false_eq_true];
     simp [dset, dget?, pyGet, pyOr, pyTruthy, JVal.objFields, build_response, optStr,
       CONVERSION_PATHS, COMPLIANCE_GATES, List.find?, List.any])

end Redix
